import Mathlib

/-!
Verification development for the frame-customizer ephemeral-variant system.

The embedding models the two source modules the claims are about:

* `src/scripts/cleanupWorker.js` — the Reconciler / cleanup scheduler:
  error tracking (`trackError` / `sendAlarm`), the frequent sweep
  (`runCleanupPass`), the daily full scan (`runDailyFullScan`) and the
  shared deletion primitive (`deleteTemporaryVariant`).
* the provisioning route (`src/unnamed/part_000`, an `action` handler):
  input validation (`validatePrice`, the missing-field check), the
  in-process dedup cache (`cleanupCache` and the 3-second window check),
  the price-settlement polling loop (`waitForVariantReady`) and the
  reuse-path lookup (`findExistingVariant`).

Timestamps are modelled as `Int` milliseconds (JS `Date.now()`), catalog
prices as `ℚ`.  External collaborators (session store, catalog REST
client, Prisma store) are passed in as explicit environments so every
definition is executable.
-/

/-- A row of the `temporary_products` table (Prisma model `temporaryProduct`),
with the fields the cleanup worker and provisioner read or write. -/
structure TemporaryProduct where
  id : Nat
  productId : String
  variantId : String
  createdAt : Int
  scheduledDeletionAt : Int
  deletedAt : Option Int
  boy : Int
  en : Int
  materyal : String
  isOrdered : Bool
  cleanupAttempts : Nat
  lastCleanupError : Option String
  sessionId : String
deriving DecidableEq, Repr

/-- A row of the `cleanup_logs` table (Prisma model `cleanupLog`), as written
by `logCleanupAction` / `sendAlarm`. -/
structure CleanupLogEntry where
  action : String
  message : String
  errorDetails : Option String
deriving DecidableEq, Repr

/-- Outcome of one catalog REST call as seen by the cleanup worker:
success, a 404 (`err.response?.code === 404`), or any other failure
carrying its message. -/
inductive CatalogResult where
  | ok : CatalogResult
  | notFound : CatalogResult
  | err (msg : String) : CatalogResult
deriving DecidableEq, Repr

/-- The external collaborators of `deleteTemporaryVariant`:
`sessionStorage.loadSession` (present or absent), the catalog read
`admin.get variants/:id` and the catalog delete
`admin.delete products/:pid/variants/:vid`. -/
structure CleanupEnv where
  loadSession : String → Bool
  readVariant : String → CatalogResult
  deleteVariant : String → String → CatalogResult

/-- Failure modes of `deleteTemporaryVariant`: the session lookup came back
absent, or a catalog call failed with a non-404 error. -/
inductive DeleteError where
  | sessionNotFound : DeleteError
  | catalog (msg : String) : DeleteError
deriving DecidableEq, Repr

/-- The error text stored by the sweep loop
(`String(err.message || err)` in `runCleanupPass`). -/
def DeleteError.text : DeleteError → String
  | .sessionNotFound => "Admin session not found"
  | .catalog msg => msg

/-- `deleteTemporaryVariant(item)` from `cleanupWorker.js`: load the admin
session (throwing when absent, before any catalog call), then
read-then-delete the catalog variant inside one `try` whose `catch`
swallows a 404 and rethrows anything else; finally set `deletedAt`
unconditionally. -/
def deleteTemporaryVariant (env : CleanupEnv) (now : Int) (item : TemporaryProduct) :
    Except DeleteError TemporaryProduct :=
  if env.loadSession item.sessionId = false then
    .error .sessionNotFound
  else
    let tryBlock : Except DeleteError Unit :=
      match env.readVariant item.variantId with
      | .notFound => .ok ()
      | .err m => .error (.catalog m)
      | .ok =>
        match env.deleteVariant item.productId item.variantId with
        | .notFound => .ok ()
        | .err m => .error (.catalog m)
        | .ok => .ok ()
    match tryBlock with
    | .error e => .error e
    | .ok () => .ok { item with deletedAt := some now }

/-- The `where` filter of the frequent sweep query in `runCleanupPass`:
`scheduledDeletionAt <= now`, `deletedAt: null`, `isOrdered: false`. -/
def sweepWhere (now : Int) (r : TemporaryProduct) : Bool :=
  decide (r.scheduledDeletionAt ≤ now) && r.deletedAt.isNone && !r.isOrdered

/-- The `orderBy: scheduledDeletionAt asc` ordering of the sweep query. -/
def bySchedule (a b : TemporaryProduct) : Prop :=
  a.scheduledDeletionAt ≤ b.scheduledDeletionAt

instance : DecidableRel bySchedule :=
  fun a b => Int.decLe a.scheduledDeletionAt b.scheduledDeletionAt

instance : IsTotal TemporaryProduct bySchedule :=
  ⟨fun a b => Int.le_total a.scheduledDeletionAt b.scheduledDeletionAt⟩

instance : IsTrans TemporaryProduct bySchedule :=
  ⟨fun _ _ _ hab hbc => le_trans hab hbc⟩

/-- The batch returned by the sweep query of `runCleanupPass`: all rows
matching `sweepWhere`, stably sorted ascending by `scheduledDeletionAt`. -/
def sweepSelection (db : List TemporaryProduct) (now : Int) : List TemporaryProduct :=
  List.insertionSort bySchedule (db.filter (sweepWhere now))

/-- Per-item body of the sweep loop in `runCleanupPass`: on success the row
is the one returned by `deleteTemporaryVariant` (with `deletedAt` set); on
failure the row gets `cleanupAttempts` incremented and `lastCleanupError`
set to the error text, and the error flag is reported. -/
def processItem (env : CleanupEnv) (now : Int) (item : TemporaryProduct) :
    TemporaryProduct × Bool :=
  match deleteTemporaryVariant env now item with
  | .ok updated => (updated, false)
  | .error e =>
      ({ item with
          cleanupAttempts := item.cleanupAttempts + 1
          lastCleanupError := some e.text }, true)

/-- `runCleanupPass` in sequence: the sweep selection is processed in list
order, one item at a time, each through `processItem`. -/
def runCleanupPass (env : CleanupEnv) (now : Int) (db : List TemporaryProduct) :
    List (TemporaryProduct × Bool) :=
  (sweepSelection db now).map (processItem env now)

/-- The age threshold of the daily scan: `ageHours >= 24` with
`ageHours = (now - createdAt) / 3600000`, i.e. `now - createdAt ≥ 86400000`. -/
def dailyAgeReached (now : Int) (item : TemporaryProduct) : Bool :=
  decide ((86400000 : Int) ≤ now - item.createdAt)

/-- Per-item body of the daily loop in `runDailyFullScan`: items at least
24 hours old go through `deleteTemporaryVariant`; a failure is only
counted and logged to the console — the row itself is left unchanged. -/
def dailyProcessItem (env : CleanupEnv) (now : Int) (item : TemporaryProduct) :
    TemporaryProduct × Bool :=
  if dailyAgeReached now item then
    match deleteTemporaryVariant env now item with
    | .ok updated => (updated, false)
    | .error _ => (item, true)
  else (item, false)

/-- `runDailyFullScan`: select every row with `deletedAt: null` (no other
condition) and run the per-item daily body over the batch in order. -/
def runDailyFullScan (env : CleanupEnv) (now : Int) (db : List TemporaryProduct) :
    List (TemporaryProduct × Bool) :=
  (db.filter (fun r => r.deletedAt.isNone)).map (dailyProcessItem env now)

/-- One record of the in-memory `recentErrors` array of the cleanup worker. -/
structure ErrorRecord where
  timestamp : Int
  message : String
deriving DecidableEq, Repr

/-- `ERROR_WINDOW_MS = 5 * 60 * 1000`. -/
def ERROR_WINDOW_MS : Int := 300000

/-- `ERROR_THRESHOLD = 3`. -/
def ERROR_THRESHOLD : Nat := 3

/-- A plain serialization of the recent-error list, standing in for
`JSON.stringify(errors, null, 2)` in `sendAlarm`. -/
def serializeErrors (errors : List ErrorRecord) : String :=
  String.intercalate (";") (errors.map (fun e => toString e.timestamp ++ (":") ++ e.message))

/-- The audit row written by `sendAlarm`: action `alarm`, the fixed alarm
message, and the serialized recent-error list as `errorDetails`. -/
def alarmEntry (errors : List ErrorRecord) : CleanupLogEntry :=
  { action := "alarm"
    message := "Cleanup sistemi 3 hataya ulasti!"
    errorDetails := some (serializeErrors errors) }

/-- `trackError` from `cleanupWorker.js`: push the new error record, prune
the log to entries with `timestamp > now - ERROR_WINDOW_MS`, and when the
pruned length has reached `ERROR_THRESHOLD` emit the alarm audit entry.
Returns the new log and the emitted alarm entry, if any. -/
def trackError (recent : List ErrorRecord) (now : Int) (msg : String) :
    List ErrorRecord × Option CleanupLogEntry :=
  let pushed := recent ++ [{ timestamp := now, message := msg }]
  let cutoff := now - ERROR_WINDOW_MS
  let pruned := pushed.filter (fun e => decide (cutoff < e.timestamp))
  if ERROR_THRESHOLD ≤ pruned.length then
    (pruned, some (alarmEntry pruned))
  else
    (pruned, none)

/-- Folding `trackError` over a sequence of tracked errors, collecting the
alarm emitted (or not) at each step. -/
def trackErrorSeq (start : List ErrorRecord) (events : List (Int × String)) :
    List ErrorRecord × List (Option CleanupLogEntry) :=
  events.foldl
    (fun acc ev =>
      let step := trackError acc.1 ev.1 ev.2
      (step.1, acc.2 ++ [step.2]))
    (start, [])

/-- `MIN_PRICE = 0.01` from the provisioning route. -/
def MIN_PRICE : ℚ := 1 / 100

/-- `MAX_PRICE = 999999.99` from the provisioning route. -/
def MAX_PRICE : ℚ := 99999999 / 100

/-- Failure modes of `validatePrice`: `parseFloat` gave `NaN`, or the value
is below `MIN_PRICE`, or above `MAX_PRICE`. -/
inductive PriceError where
  | invalidFormat : PriceError
  | belowMin : PriceError
  | aboveMax : PriceError
deriving DecidableEq, Repr

/-- `Math.round(numPrice * 100) / 100` — JS `Math.round` rounds half toward
positive infinity, as does Mathlib `round`. -/
def roundTo2 (q : ℚ) : ℚ := (round (q * 100) : ℤ) / 100

/-- `validatePrice` from the provisioning route.  Its input is the result of
`parseFloat(String(price))`, modelled as `Option ℚ` with `none` for `NaN`:
reject `NaN`, reject below `MIN_PRICE`, reject above `MAX_PRICE`, otherwise
return the value rounded to two decimal places. -/
def validatePrice (parsed : Option ℚ) : Except PriceError ℚ :=
  match parsed with
  | none => .error .invalidFormat
  | some numPrice =>
    if numPrice < MIN_PRICE then .error .belowMin
    else if MAX_PRICE < numPrice then .error .aboveMax
    else .ok (roundTo2 numPrice)

/-- Value of a list of decimal digit characters, most significant first. -/
def digitsVal (cs : List Char) : Nat :=
  cs.foldl (fun a c => a * 10 + (c.toNat - 48)) 0

/-- JS `parseInt(s, 10)` on the shapes that occur here: an optional sign
followed by a longest run of decimal digits; `none` models `NaN` (no
leading digits at all). -/
def parseIntJS (s : String) : Option Int :=
  let rest : List Char × Int :=
    match s.toList with
    | List.cons (Char.ofNat 45) r => (r, -1)
    | List.cons (Char.ofNat 43) r => (r, 1)
    | r => (r, 1)
  let digits := rest.1.takeWhile (fun c => c.isDigit)
  if digits.isEmpty then none
  else some (rest.2 * (digitsVal digits : Int))

/-- JS `parseFloat` restricted to integer numerals — enough for the
dimension and price strings exercised by the claims. -/
def parseFloatSimple (s : String) : Option ℚ :=
  (parseIntJS s).map (fun z => (z : ℚ))

/-- JS falsiness of a `formData.get` result: `null` or the empty string. -/
def isBlank (s : Option String) : Bool :=
  match s with
  | none => true
  | some str => str.isEmpty

/-- Where the provisioning `action` is after its input-checking stage:
the generic missing-field 400 (`errorType: "validation"`), the price 400
(`errorType: "invalid_price"`), or proceeding toward the catalog with
`parseInt`-coerced dimensions and the validated price. -/
inductive ProvisionCheck where
  | missingFields : ProvisionCheck
  | invalidPrice (e : PriceError) : ProvisionCheck
  | proceeds (boyInt enInt : Option Int) (price : ℚ) : ProvisionCheck
deriving DecidableEq, Repr

/-- The input-checking stage of the provisioning `action` (the truthiness
check over the five form fields, then `validatePrice`, then the
`parseInt(String(boy), 10)` / `parseInt(String(en), 10)` coercions).
`parseFloat` is passed in explicitly since the raw price string is opaque
to this stage. -/
def provisionValidate (parseFloat : String → Option ℚ)
    (baseVariantId boy en materyal priceRaw : Option String) : ProvisionCheck :=
  if isBlank baseVariantId || isBlank boy || isBlank en ||
      isBlank materyal || isBlank priceRaw then
    .missingFields
  else
    match validatePrice (parseFloat (priceRaw.getD (""))) with
    | .error e => .invalidPrice e
    | .ok p => .proceeds (parseIntJS (boy.getD (""))) (parseIntJS (en.getD (""))) p

/-- `CACHE_DURATION = 5000` (ms). -/
def CACHE_DURATION : Int := 5000

/-- `MAX_CACHE_SIZE = 1000`. -/
def MAX_CACHE_SIZE : Nat := 1000

/-- The in-process `requestCache` `Map`, in insertion order: cache key to
timestamp of the most recent in-flight request for that key. -/
abbrev RequestCache := List (String × Int)

/-- The comparator `(a, b) => a[1].timestamp - b[1].timestamp` of the
size-cap eviction in `cleanupCache` (JS `Array.prototype.sort` is stable,
as is the insertion sort used to model it). -/
def byTimestamp (a b : String × Int) : Prop := a.2 ≤ b.2

instance : DecidableRel byTimestamp := fun a b => Int.decLe a.2 b.2

/-- `cleanupCache` from the provisioning route: drop entries older than
`CACHE_DURATION`; then, if the map still holds more than `MAX_CACHE_SIZE`
entries, sort the entries by timestamp and delete the oldest
`Math.floor(MAX_CACHE_SIZE * 0.2) = 200` of them. -/
def cleanupCache (now : Int) (m : RequestCache) : RequestCache :=
  let m := m.filter (fun e => !decide (CACHE_DURATION < now - e.2))
  if MAX_CACHE_SIZE < m.length then
    let entries := List.insertionSort byTimestamp m
    let toDelete := (entries.take (MAX_CACHE_SIZE / 5)).map Prod.fst
    toDelete.foldl (fun acc k => acc.filter (fun e => e.1 != k)) m
  else m

/-- `requestCache.get(key)?.timestamp` over the association-list model. -/
def cacheLookup (m : RequestCache) (k : String) : Option Int :=
  (m.find? (fun e => e.1 == k)).map Prod.snd

/-- `requestCache.set(key, { timestamp: now })`: overwrite in place when the
key exists (JS `Map` keeps the original insertion position), else append. -/
def cacheSet (m : RequestCache) (k : String) (ts : Int) : RequestCache :=
  if m.any (fun e => e.1 == k) then
    m.map (fun e => if e.1 == k then (k, ts) else e)
  else m ++ [(k, ts)]

/-- Outcome of the dedup stage of the provisioning `action`: the 429
duplicate response carrying `retryAfter: 3` (no catalog call is made), or
continuing to the catalog with the cache entry recorded. -/
inductive DedupOutcome where
  | conflict (retryAfter : Nat) : DedupOutcome
  | toCatalog (newCache : RequestCache) : DedupOutcome
deriving DecidableEq, Repr

/-- True exactly on the 429 duplicate outcome. -/
def DedupOutcome.isConflict : DedupOutcome → Bool
  | .conflict _ => true
  | .toCatalog _ => false

/-- The dedup stage of the provisioning `action`: run `cleanupCache`, then
if the map holds an entry for the key whose timestamp is less than 3000ms
old, return the 429 duplicate response; otherwise record the key and
continue toward the catalog. -/
def dedupCheck (m : RequestCache) (now : Int) (key : String) : DedupOutcome :=
  let m := cleanupCache now m
  match cacheLookup m key with
  | some ts =>
    if now - ts < 3000 then .conflict 3
    else .toCatalog (cacheSet m key now)
  | none => .toCatalog (cacheSet m key now)

/-- Outcome of one `admin.get variants/:id` during price polling: the call
threw (timeout or HTTP failure), returned a body without a variant, or
returned a variant whose `price` field is `none` (null/undefined/empty) or
a parsed value. -/
inductive ReadOutcome where
  | fail : ReadOutcome
  | noVariant : ReadOutcome
  | variant (price : Option ℚ) : ReadOutcome
deriving DecidableEq, Repr

/-- JS `Math.abs` on the price difference. -/
def jsAbs (q : ℚ) : ℚ := if q < 0 then -q else q

/-- The retry loop of `waitForVariantReady` (`maxRetries = 8`): attempt
`i = 0 .. maxRetries - 1` reads the variant and returns it as soon as the
read yields a present price within `0.01` of the expected price
(`Math.abs(variantPrice - expected) < 0.01`); a thrown read, a missing
price, or a mismatched price just moves to the next attempt. -/
def pollAttempts (reads : Nat → ReadOutcome) (expected : ℚ) (maxRetries : Nat) :
    Option ℚ :=
  (List.range maxRetries).findSome? (fun i =>
    match reads i with
    | .variant (some p) => if jsAbs (p - expected) < 1 / 100 then some p else none
    | _ => none)

/-- `waitForVariantReady` from the provisioning route: the bounded retry
loop, then one final unconditional read whose variant (with whatever price
it has) is returned as-is; a thrown final read or a missing variant yields
`none` (the JS function returns null/undefined).  The result is the
returned variant's price field. -/
def waitForVariantReady (reads : Nat → ReadOutcome) (expected : ℚ) :
    Option (Option ℚ) :=
  match pollAttempts reads expected 8 with
  | some p => some (some p)
  | none =>
    match reads 8 with
    | .fail => none
    | .noVariant => none
    | .variant op => some op

/-- The price held by `newVariant` right after the polling step of the
creation path: the polled variant when `waitForVariantReady` returned one,
else the price from the original create response. -/
def polledPrice (created : Option ℚ) (reads : Nat → ReadOutcome) (expected : ℚ) :
    Option ℚ :=
  match waitForVariantReady reads expected with
  | some op => op
  | none => created

/-- The zero-price guard of the creation path:
`!newVariant.price || newVariant.price === "0" || newVariant.price === "0.00"`. -/
def isZeroish (p : Option ℚ) : Bool :=
  match p with
  | none => true
  | some q => q == 0

/-- The creation-path response as far as price settlement is concerned: a
success response carrying the final price, the raw variant price echoed in
the `debug` block (always present, matched or not), and whether the manual
price update was re-issued; or a failure response with its `errorType`.
No field of the success response flags a price mismatch. -/
inductive ProvisionResult where
  | success (finalPrice : ℚ) (debugOriginalPrice : Option ℚ) (reissued : Bool) :
      ProvisionResult
  | failure (errorType : String) : ProvisionResult
deriving DecidableEq, Repr

/-- `newVariant.price || calculatedPrice`: a missing price falls back to the
requested price in the response body. -/
def finalPriceOf (p : Option ℚ) (calculatedPrice : ℚ) : ℚ :=
  match p with
  | some q => q
  | none => calculatedPrice

/-- The tail of the creation path after the variant was created: run
`waitForVariantReady`, adopt its variant if any, and only when the
resulting price is missing or zero re-issue a manual price update followed
by one re-read (`updateRead`).  A thrown update/re-read keeps the previous
variant; a re-read returning no variant leaves `newVariant` undefined and
the handler ends in the 500 `system_error` response.  Otherwise answer the
success response with `newVariant.price || calculatedPrice`. -/
def provisionCreationFinish (created : Option ℚ) (reads : Nat → ReadOutcome)
    (updateRead : ReadOutcome) (calculatedPrice : ℚ) : ProvisionResult :=
  let p1 := polledPrice created reads calculatedPrice
  if isZeroish p1 then
    match updateRead with
    | .fail => .success (finalPriceOf p1 calculatedPrice) p1 true
    | .noVariant => .failure ("system_error")
    | .variant op => .success (finalPriceOf op calculatedPrice) op true
  else
    .success (finalPriceOf p1 calculatedPrice) p1 false

/-- Claim C2 as stated, over the creation-path response: either the carried
price matches the requested price within `0.01`, or the price update was
re-issued, or the response is not a success (nothing else in the success
response reports a mismatch). -/
def priceSettlementClaim (res : ProvisionResult) (requested : ℚ) : Prop :=
  match res with
  | .success p _ reissued => |p - requested| < 1 / 100 ∨ reissued = true
  | .failure _ => True

/-- A catalog variant as read by `findExistingVariant`: its three option
slots and its price. -/
structure CatalogVariant where
  id : Nat
  price : Option ℚ
  option1 : String
  option2 : String
  option3 : String
deriving DecidableEq, Repr

/-- `findExistingVariant` from the provisioning route: list the product's
variants and return the first whose three option slots are string-equal to
the requested dimensions and material; any thrown lookup (timeout
included) is caught and yields `none`, indistinguishable from no match. -/
def findExistingVariant (listResult : Except String (List CatalogVariant))
    (boy en materyal : String) : Option CatalogVariant :=
  match listResult with
  | .error _ => none
  | .ok allVariants =>
    allVariants.find? (fun v =>
      v.option1 == boy && v.option2 == en && v.option3 == materyal)

/-- The branch the provisioning `action` takes on the reuse-lookup result:
a found variant enters the reuse path, `none` (no match or swallowed
lookup failure alike) falls through to the creation path. -/
inductive PathDecision where
  | reusePath (v : CatalogVariant) : PathDecision
  | creationPath : PathDecision
deriving DecidableEq, Repr

/-- The `if (existingVariant)` branch of the provisioning `action`. -/
def reuseDecision (found : Option CatalogVariant) : PathDecision :=
  match found with
  | some v => .reusePath v
  | none => .creationPath

/-- What the remote create-variant failure looked like: the "already
exists" base error, a timeout, or anything else. -/
inductive CreationFailureKind where
  | alreadyExists : CreationFailureKind
  | timeout : CreationFailureKind
  | other : CreationFailureKind
deriving DecidableEq, Repr

/-- How the `catch` block of the create call ends: answering a reused
variant, or surfacing a terminal error response. -/
inductive CreationErrorResolution where
  | usedExisting (v : CatalogVariant) : CreationErrorResolution
  | surfaced (kind : CreationFailureKind) : CreationErrorResolution
deriving DecidableEq, Repr

/-- The `catch` block of the create call in the provisioning `action`: when
the remote reported the variant combination already exists, re-run the
reuse lookup once (`retryList` being that second listing) and answer a
reused success if it finds a match; every other outcome surfaces the
terminal error. -/
def resolveCreationFailure (kind : CreationFailureKind)
    (retryList : Except String (List CatalogVariant))
    (boy en materyal : String) : CreationErrorResolution :=
  match kind with
  | .alreadyExists =>
    match findExistingVariant retryList boy en materyal with
    | some v => .usedExisting v
    | none => .surfaced .alreadyExists
  | k => .surfaced k

/-- A live record already marked as ordered, more than 24 hours old at the
times used below. -/
def orderedRecord : TemporaryProduct :=
  { id := 1
    productId := "p1"
    variantId := "v1"
    createdAt := 0
    scheduledDeletionAt := 7200000
    deletedAt := none
    boy := 100
    en := 50
    materyal := "ahsap"
    isOrdered := true
    cleanupAttempts := 0
    lastCleanupError := none
    sessionId := "s1" }

/-- A live, never-ordered record used in the failure scenarios below. -/
def staleRecord : TemporaryProduct :=
  { orderedRecord with id := 2, variantId := "v2", isOrdered := false }

/-- An environment where the session is present and both catalog calls
succeed. -/
def okEnv : CleanupEnv :=
  { loadSession := fun _ => true
    readVariant := fun _ => .ok
    deleteVariant := fun _ _ => .ok }

/-- An environment where the credential lookup finds no session. -/
def noSessionEnv : CleanupEnv :=
  { okEnv with loadSession := fun _ => false }

/-- A concrete catalog variant whose option slots match the lookup used in
the witnesses below. -/
def matchingVariant : CatalogVariant :=
  { id := 11, price := some 100, option1 := "100", option2 := "50", option3 := "ahsap" }

/-- A catalog that persistently reports the variant with price 5 on every
read. -/
def persistentWrongPriceReads : Nat → ReadOutcome := fun _ => .variant (some 5)

instance : IsTotal (String × Int) byTimestamp := ⟨fun a b => Int.le_total a.2 b.2⟩

instance : IsTrans (String × Int) byTimestamp := ⟨fun _ _ _ hab hbc => le_trans hab hbc⟩

/-- A dedup map holding 1001 entries, all within the 5-second TTL: the
target key (oldest, 2500ms old at time 10000) plus 1000 distinct fresher
keys. -/
def floodedCache : RequestCache :=
  ("k", 7500) :: (List.range MAX_CACHE_SIZE).map (fun i => (toString i, 7600))


/-- `jsAbs` is the absolute value. -/
theorem jsAbs_eq_abs (q : ℚ) : jsAbs q = |q| := by
  rcases lt_or_ge q 0 with h | h
  · rw [jsAbs, if_pos h, abs_of_neg h]
  · rw [jsAbs, if_neg (not_lt.mpr h), abs_of_nonneg h]

/-- C5: every frequent sweep selects exactly the records with
`deletedAt = null`, `isOrdered = false` and `scheduledDeletionAt ≤ now`,
and processes them in ascending `scheduledDeletionAt` order, so of expired
records with T1 < T2 < T3 the one at T1 is attempted first. -/
theorem sweep_selects_expired_in_schedule_order (db : List TemporaryProduct) (now : Int) :
    (∀ r, r ∈ sweepSelection db now ↔
      r ∈ db ∧ r.deletedAt = none ∧ r.isOrdered = false ∧ r.scheduledDeletionAt ≤ now) ∧
    List.Pairwise bySchedule (sweepSelection db now) ∧
    (∀ env, runCleanupPass env now db = (sweepSelection db now).map (processItem env now)) := by
  refine ⟨?_, List.sorted_insertionSort bySchedule _, fun env => rfl⟩
  intro r
  rw [sweepSelection, List.mem_insertionSort, List.mem_filter]
  simp only [sweepWhere, Bool.and_eq_true, decide_eq_true_eq,
    Option.isNone_iff_eq_none, Bool.not_eq_true']
  tauto

/-- C6: the shared deletion primitive fails exactly when the session lookup
is absent (a `SessionNotFound`, before any catalog call) or the catalog
read, or the delete issued after a successful read, fails with a non-404
error; a 404 on either call is swallowed, and every success sets
`deletedAt` unconditionally — so deleting an already-deleted or absent
variant never raises. -/
theorem delete_primitive_failure_characterization
    (env : CleanupEnv) (now : Int) (item : TemporaryProduct) :
    (deleteTemporaryVariant env now item = .ok { item with deletedAt := some now } ↔
      env.loadSession item.sessionId = true ∧
      (env.readVariant item.variantId = .notFound ∨
        (env.readVariant item.variantId = .ok ∧
          (env.deleteVariant item.productId item.variantId = .ok ∨
            env.deleteVariant item.productId item.variantId = .notFound)))) ∧
    (deleteTemporaryVariant env now item = .error .sessionNotFound ↔
      env.loadSession item.sessionId = false) ∧
    (∀ m, deleteTemporaryVariant env now item = .error (.catalog m) ↔
      env.loadSession item.sessionId = true ∧
      (env.readVariant item.variantId = .err m ∨
        (env.readVariant item.variantId = .ok ∧
          env.deleteVariant item.productId item.variantId = .err m))) := by
  cases hs : env.loadSession item.sessionId <;>
    cases hr : env.readVariant item.variantId <;>
      cases hd : env.deleteVariant item.productId item.variantId <;>
        simp [deleteTemporaryVariant, hs, hr, hd]



/-- C7: price validation fails exactly when the input does not parse
(`NaN`), parses below `0.01`, or parses above `999999.99`; otherwise the
parsed value rounded to two decimals is returned.  In particular `"0"`
(parsing to 0) is rejected as below minimum, `"1000000"` as above maximum,
and `"19.999"` (parsing to 19.999) is accepted as exactly 20. -/
theorem validate_price_characterization :
    (∀ parsed : Option ℚ, (∃ e, validatePrice parsed = .error e) ↔
      parsed = none ∨ ∃ q, parsed = some q ∧ (q < MIN_PRICE ∨ MAX_PRICE < q)) ∧
    (∀ q : ℚ, MIN_PRICE ≤ q → q ≤ MAX_PRICE → validatePrice (some q) = .ok (roundTo2 q)) ∧
    validatePrice (some 0) = .error .belowMin ∧
    validatePrice (some 1000000) = .error .aboveMax ∧
    validatePrice (some (19999 / 1000)) = .ok 20 := by
  refine ⟨?_, ?_, ?_, ?_, ?_⟩
  · intro parsed
    cases parsed with
    | none => simp [validatePrice]
    | some q =>
      simp only [validatePrice]
      split_ifs with h1 h2 <;> simp [*]
  · intro q h1 h2
    simp only [validatePrice]
    rw [if_neg (not_lt.mpr h1), if_neg (not_lt.mpr h2)]
  · norm_num [validatePrice, MIN_PRICE]
  · norm_num [validatePrice, MIN_PRICE, MAX_PRICE]
  · norm_num [validatePrice, MIN_PRICE, MAX_PRICE, roundTo2, round_eq]

/-- C7 witness: the in-range branch applied at the concrete price 5. -/
theorem validate_price_characterization_witness :
    MIN_PRICE ≤ (5 : ℚ) ∧ (5 : ℚ) ≤ MAX_PRICE ∧ validatePrice (some 5) = .ok (roundTo2 5) := by
  refine ⟨by norm_num [MIN_PRICE], by norm_num [MAX_PRICE], ?_⟩
  exact validate_price_characterization.2.1 5 (by norm_num [MIN_PRICE]) (by norm_num [MAX_PRICE])

/-- C9: each tracked error is appended and the log pruned to the trailing
5-minute window; the alarm audit entry (action `alarm`, carrying the
serialized recent-error list) is emitted exactly when the pruned log has
reached the threshold of 3.  Injecting exactly three failing deletions
inside the window, starting from an empty log, produces no alarm on the
first two and exactly one alarm at the third. -/
theorem error_tracker_alarm_threshold :
    (∀ (recent : List ErrorRecord) (now : Int) (msg : String),
      (trackError recent now msg).1 =
        (recent ++ [ErrorRecord.mk now msg]).filter
          (fun e => decide (now - ERROR_WINDOW_MS < e.timestamp)) ∧
      ((trackError recent now msg).2 = some (alarmEntry (trackError recent now msg).1) ↔
        ERROR_THRESHOLD ≤ (trackError recent now msg).1.length) ∧
      ((trackError recent now msg).2 = none ↔
        (trackError recent now msg).1.length < ERROR_THRESHOLD)) ∧
    (trackErrorSeq [] [(0, "e1"), (100, "e2"), (200, "e3")]).2 =
      [none, none,
        some (alarmEntry
          [ErrorRecord.mk 0 ("e1"), ErrorRecord.mk 100 ("e2"), ErrorRecord.mk 200 ("e3")])] := by
  constructor
  · intro recent now msg
    simp only [trackError]
    split_ifs with h
    · exact ⟨rfl, iff_of_true rfl h, iff_of_false (by simp) (by simpa using Nat.not_lt.mpr h)⟩
    · exact ⟨rfl, iff_of_false (by simp [Eq.comm]) h, iff_of_true rfl (by simpa using Nat.not_le.mp h)⟩
  · decide

/-- C1 counterexample: the daily full scan selects on `deletedAt = null`
only — no `isOrdered` condition — so a record with `isOrdered = true` aged
past 24 hours is deleted by the Reconciler (its `deletedAt` gets set). -/
theorem daily_scan_deletes_ordered_record :
    orderedRecord.isOrdered = true ∧
    runDailyFullScan okEnv 172800000 [orderedRecord] =
      [({ orderedRecord with deletedAt := some 172800000 }, false)] := by
  constructor
  · rfl
  · rfl

/-- C1 amended: the frequent sweep never selects an `isOrdered = true`
record, but the daily full scan deletes any non-deleted record at least 24
hours old regardless of `isOrdered` — given a live session and a catalog
read/delete that succeed, an ordered record in the scanned store comes out
with `deletedAt` set. -/
theorem ordered_exempt_only_from_sweep :
    (∀ (db : List TemporaryProduct) (now : Int) (r : TemporaryProduct),
      r ∈ sweepSelection db now → r.isOrdered = false) ∧
    (∀ (env : CleanupEnv) (now : Int) (item : TemporaryProduct),
      item.isOrdered = true → item.deletedAt = none →
      dailyAgeReached now item = true →
      env.loadSession item.sessionId = true →
      env.readVariant item.variantId = .ok →
      env.deleteVariant item.productId item.variantId = .ok →
      ∀ db : List TemporaryProduct, item ∈ db →
        ({ item with deletedAt := some now }, false) ∈ runDailyFullScan env now db) := by
  constructor
  · intro db now r hr
    exact ((sweep_selects_expired_in_schedule_order db now).1 r |>.mp hr).2.2.1
  · intro env now item _ hdel hage hsess hread hdelete db hdb
    have hmem : item ∈ db.filter (fun r => r.deletedAt.isNone) := by
      rw [List.mem_filter]
      exact ⟨hdb, by rw [hdel]; rfl⟩
    have hproc : dailyProcessItem env now item = ({ item with deletedAt := some now }, false) := by
      rw [dailyProcessItem, if_pos hage, deleteTemporaryVariant]
      rw [hsess, hread, hdelete]
      simp
    rw [runDailyFullScan, ← hproc]
    exact List.mem_map_of_mem (dailyProcessItem env now) hmem

/-- C1 amended witness: the sweep part at a store holding only the ordered
record (which it does not select), and the daily part at the ordered
record itself. -/
theorem ordered_exempt_only_from_sweep_witness :
    (orderedRecord ∈ sweepSelection [orderedRecord] 172800000 →
      orderedRecord.isOrdered = false) ∧
    ({ orderedRecord with deletedAt := some 172800000 }, false) ∈
      runDailyFullScan okEnv 172800000 [orderedRecord] := by
  constructor
  · exact ordered_exempt_only_from_sweep.1 [orderedRecord] 172800000 orderedRecord
  · exact ordered_exempt_only_from_sweep.2 okEnv 172800000 orderedRecord rfl rfl rfl rfl rfl rfl
      [orderedRecord] (List.mem_singleton.mpr rfl)

/-- C3 counterexample: a per-item deletion failure in the daily full scan
(here a `SessionNotFound`) is only counted — the record keeps
`cleanupAttempts = 0` and `lastCleanupError = none` instead of being
updated as the claim states for both loops. -/
theorem daily_scan_failure_leaves_record_unchanged :
    deleteTemporaryVariant noSessionEnv 172800000 staleRecord = .error .sessionNotFound ∧
    dailyProcessItem noSessionEnv 172800000 staleRecord = (staleRecord, true) ∧
    staleRecord.cleanupAttempts = 0 ∧
    staleRecord.lastCleanupError = none := by
  exact ⟨rfl, rfl, rfl, rfl⟩

/-- C3 amended: a per-item deletion failure in the frequent sweep
(including `SessionNotFound`) increments that record's `cleanupAttempts`
and sets `lastCleanupError` to the error text, but a per-item failure in
the daily full scan performs no such bookkeeping — the record is returned
unchanged, with only the error counter/log affected. -/
theorem sweep_failure_bookkeeping_daily_none :
    (∀ (env : CleanupEnv) (now : Int) (item : TemporaryProduct) (e : DeleteError),
      deleteTemporaryVariant env now item = .error e →
      processItem env now item =
        ({ item with
            cleanupAttempts := item.cleanupAttempts + 1
            lastCleanupError := some e.text }, true)) ∧
    (∀ (env : CleanupEnv) (now : Int) (item : TemporaryProduct) (e : DeleteError),
      dailyAgeReached now item = true →
      deleteTemporaryVariant env now item = .error e →
      dailyProcessItem env now item = (item, true)) := by
  constructor
  · intro env now item e he
    rw [processItem, he]
  · intro env now item e hage he
    rw [dailyProcessItem, if_pos hage, he]

/-- C3 amended witness: the failing `SessionNotFound` deletion applied to
the concrete stale record in both loops. -/
theorem sweep_failure_bookkeeping_daily_none_witness :
    processItem noSessionEnv 172800000 staleRecord =
      ({ staleRecord with
          cleanupAttempts := staleRecord.cleanupAttempts + 1
          lastCleanupError := some DeleteError.sessionNotFound.text }, true) ∧
    dailyProcessItem noSessionEnv 172800000 staleRecord = (staleRecord, true) := by
  constructor
  · exact sweep_failure_bookkeeping_daily_none.1 noSessionEnv 172800000 staleRecord
      .sessionNotFound rfl
  · exact sweep_failure_bookkeeping_daily_none.2 noSessionEnv 172800000 staleRecord
      .sessionNotFound rfl rfl

/-- C10: any failure of the reuse-path listing (timeouts included) is
swallowed into `none`, so the provisioner proceeds to the creation path
instead of surfacing the lookup failure; the duplicate create this can
cause is recovered only through the already-exists fallback, which re-runs
the lookup and answers a reused variant on a match, surfacing the terminal
error otherwise. -/
theorem lookup_failure_swallowed_to_creation_path :
    (∀ (e boy en materyal : String),
      findExistingVariant (.error e) boy en materyal = none ∧
      reuseDecision (findExistingVariant (.error e) boy en materyal) = .creationPath) ∧
    (∀ (retryList : Except String (List CatalogVariant)) (boy en materyal : String)
        (v : CatalogVariant),
      findExistingVariant retryList boy en materyal = some v →
      resolveCreationFailure .alreadyExists retryList boy en materyal = .usedExisting v) ∧
    (∀ (retryList : Except String (List CatalogVariant)) (boy en materyal : String),
      findExistingVariant retryList boy en materyal = none →
      resolveCreationFailure .alreadyExists retryList boy en materyal =
        .surfaced .alreadyExists) := by
  refine ⟨fun e boy en materyal => ⟨rfl, rfl⟩, ?_, ?_⟩
  · intro retryList boy en materyal v hv
    rw [resolveCreationFailure, hv]
  · intro retryList boy en materyal hv
    rw [resolveCreationFailure, hv]

/-- C10 witness: a timed-out listing falls through to the creation path,
and the already-exists fallback recovers the matching variant from a
successful re-listing (and surfaces the error on an empty one). -/
theorem lookup_failure_swallowed_to_creation_path_witness :
    (findExistingVariant (.error ("API istegi zaman asimina ugradi")) "100" "50" "ahsap" = none ∧
      reuseDecision (findExistingVariant (.error ("API istegi zaman asimina ugradi"))
        "100" "50" "ahsap") = .creationPath) ∧
    resolveCreationFailure .alreadyExists (.ok [matchingVariant]) "100" "50" "ahsap" =
      .usedExisting matchingVariant ∧
    resolveCreationFailure .alreadyExists (.ok []) "100" "50" "ahsap" =
      .surfaced .alreadyExists := by
  refine ⟨lookup_failure_swallowed_to_creation_path.1 _ _ _ _, ?_, ?_⟩
  · exact lookup_failure_swallowed_to_creation_path.2.1 (.ok [matchingVariant])
      "100" "50" "ahsap" matchingVariant rfl
  · exact lookup_failure_swallowed_to_creation_path.2.2 (.ok []) "100" "50" "ahsap" rfl

/-- Helper: the concrete price string `"100"` parses and validates to the
rounded value 100. -/
theorem validatePrice_parse_100 :
    validatePrice (parseFloatSimple (((some ("100")) : Option String).getD (""))) = .ok 100 := by
  have hp : parseFloatSimple (((some ("100")) : Option String).getD ("")) = some 100 := by
    decide
  rw [hp]
  norm_num [validatePrice, MIN_PRICE, MAX_PRICE, roundTo2, round_eq]

/-- C4 counterexample: a width of `"0"` (not a positive integer) passes the
truthiness-only input check — no `ValidationError` is raised, the value is
coerced with `parseInt` to 0, and the flow proceeds toward the catalog
calls. -/
theorem zero_width_passes_validation :
    provisionValidate parseFloatSimple (some ("base1")) (some ("0")) (some ("50"))
        (some ("ahsap")) (some ("100")) = .proceeds (some 0) (some 50) 100 ∧
    ¬ (0 : Int) < 0 := by
  constructor
  · rw [provisionValidate, if_neg (by decide), validatePrice_parse_100]
    decide
  · decide

/-- C4 amended: the input stage rejects only missing or empty fields (with
one generic validation error that names no field) and invalid prices; any
request whose five fields are non-blank and whose price validates proceeds
toward the catalog with `parseInt`-coerced dimensions — no positivity or
integer check is ever applied to width or height. -/
theorem input_stage_characterization :
    (∀ (pf : String → Option ℚ) (b w h m p : Option String),
      provisionValidate pf b w h m p = .missingFields ↔
        (isBlank b || isBlank w || isBlank h || isBlank m || isBlank p) = true) ∧
    (∀ (pf : String → Option ℚ) (b w h m p : Option String) (price : ℚ),
      (isBlank b || isBlank w || isBlank h || isBlank m || isBlank p) = false →
      validatePrice (pf (p.getD (""))) = .ok price →
      provisionValidate pf b w h m p =
        .proceeds (parseIntJS (w.getD (""))) (parseIntJS (h.getD (""))) price) := by
  constructor
  · intro pf b w h m p
    rw [provisionValidate]
    split_ifs with hb
    · simp [hb]
    · rw [Bool.not_eq_true] at hb
      simp only [hb]
      cases validatePrice (pf (p.getD (""))) <;> simp
  · intro pf b w h m p price hb hp
    rw [provisionValidate, if_neg (by rw [hb]; exact Bool.false_ne_true), hp]

/-- C4 amended witness: the characterization applied to the concrete
all-fields-present request with width `"0"`. -/
theorem input_stage_characterization_witness :
    (isBlank (some ("base1")) || isBlank (some ("0")) || isBlank (some ("50")) ||
      isBlank (some ("ahsap")) || isBlank (some ("100"))) = false ∧
    validatePrice (parseFloatSimple (((some ("100")) : Option String).getD (""))) = .ok 100 ∧
    provisionValidate parseFloatSimple (some ("base1")) (some ("0")) (some ("50"))
        (some ("ahsap")) (some ("100")) =
      .proceeds (parseIntJS (((some ("0")) : Option String).getD ("")))
        (parseIntJS (((some ("50")) : Option String).getD (""))) 100 := by
  refine ⟨rfl, validatePrice_parse_100, ?_⟩
  exact input_stage_characterization.2 parseFloatSimple (some ("base1")) (some ("0"))
    (some ("50")) (some ("ahsap")) (some ("100")) 100 rfl validatePrice_parse_100

/-- Helper: against the persistent price-5 catalog with expected price 10,
every polling attempt mismatches and the final read hands back price 5. -/
theorem polledPrice_persistent :
    polledPrice (some 5) persistentWrongPriceReads 10 = some 5 := by
  have hm : (if jsAbs ((5 : ℚ) - 10) < 1 / 100 then some (5 : ℚ) else none) = none := by
    norm_num [jsAbs]
  have hpoll : pollAttempts persistentWrongPriceReads 10 8 = none := by
    rw [pollAttempts, List.findSome?_eq_none_iff]
    intro i _
    simpa [persistentWrongPriceReads] using hm
  rw [polledPrice, waitForVariantReady, hpoll]
  rfl

/-- Helper: the zero-price guard does not fire on price 5. -/
theorem isZeroish_five : isZeroish (some 5) = false := by
  norm_num [isZeroish]

/-- C2 counterexample: with a requested price of 10 and a catalog that
persistently returns 5, all 8 polling attempts mismatch, the final read
returns price 5, the zero-price guard does not trigger (5 is nonzero), and
the handler answers a plain success carrying price 5 — no re-issued update
and nothing in the response reporting the mismatch. -/
theorem wrong_nonzero_price_returned_silently :
    provisionCreationFinish (some 5) persistentWrongPriceReads .fail 10 =
      .success 5 (some 5) false ∧
    ¬ priceSettlementClaim
        (provisionCreationFinish (some 5) persistentWrongPriceReads .fail 10) 10 := by
  have h : provisionCreationFinish (some 5) persistentWrongPriceReads .fail 10 =
      .success 5 (some 5) false := by
    simp [provisionCreationFinish, polledPrice_persistent, isZeroish_five, finalPriceOf]
  refine ⟨h, ?_⟩
  rw [h]
  simp only [priceSettlementClaim]
  push_neg
  constructor
  · rw [abs_of_neg (by norm_num : (5 : ℚ) - 10 < 0)]
    norm_num
  · exact Bool.false_ne_true

/-- C2 amended: after the bounded polling loop and the final read, the
manual price update (with its one re-read) is re-issued exactly when the
resulting price is missing or zero; when that price is a present nonzero
value, the response is a plain success carrying it unchanged — even when
it differs from the requested price by 0.01 or more — with only the
always-present debug echo of both prices and no dedicated mismatch
report. -/
theorem price_reissue_only_on_zero (created : Option ℚ) (reads : Nat → ReadOutcome)
    (updateRead : ReadOutcome) (cp : ℚ) :
    (isZeroish (polledPrice created reads cp) = false →
      provisionCreationFinish created reads updateRead cp =
        .success (finalPriceOf (polledPrice created reads cp) cp)
          (polledPrice created reads cp) false) ∧
    (isZeroish (polledPrice created reads cp) = true →
      provisionCreationFinish created reads updateRead cp = .failure ("system_error") ∨
      ∃ p dbg, provisionCreationFinish created reads updateRead cp =
        .success p dbg true) := by
  constructor
  · intro h
    simp only [provisionCreationFinish]
    rw [if_neg (by rw [h]; exact Bool.false_ne_true)]
  · intro h
    simp only [provisionCreationFinish]
    rw [if_pos h]
    cases updateRead with
    | fail => exact Or.inr ⟨_, _, rfl⟩
    | noVariant => exact Or.inl rfl
    | variant op => exact Or.inr ⟨_, _, rfl⟩

/-- C2 amended witness: the nonzero branch applied to the persistent
wrong-price catalog. -/
theorem price_reissue_only_on_zero_witness :
    isZeroish (polledPrice (some 5) persistentWrongPriceReads 10) = false ∧
    provisionCreationFinish (some 5) persistentWrongPriceReads .fail 10 =
      .success (finalPriceOf (polledPrice (some 5) persistentWrongPriceReads 10) 10)
        (polledPrice (some 5) persistentWrongPriceReads 10) false := by
  have hz : isZeroish (polledPrice (some 5) persistentWrongPriceReads 10) = false := by
    rw [polledPrice_persistent]; exact isZeroish_five
  exact ⟨hz, (price_reissue_only_on_zero (some 5) persistentWrongPriceReads .fail 10).1 hz⟩

/-- Helper: every entry of the flooded cache is the target entry or has
timestamp 7600. -/
theorem flooded_elem :
    ∀ e ∈ floodedCache, e = (("k" : String), (7500 : Int)) ∨ e.2 = 7600 := by
  intro e he
  rcases List.mem_cons.mp he with h | h
  · exact Or.inl h
  · obtain ⟨i, _, rfl⟩ := List.mem_map.mp h
    exact Or.inr rfl

/-- Helper: the erase-each-key fold only ever removes entries. -/
theorem foldl_filter_subset (ks : List String) (m : RequestCache) :
    ∀ e, e ∈ ks.foldl (fun acc k => acc.filter (fun x => x.1 != k)) m → e ∈ m := by
  induction ks generalizing m with
  | nil => exact fun e he => he
  | cons k ks ih =>
    intro e he
    exact (List.mem_filter.mp (ih (m.filter (fun x => x.1 != k)) e he)).1

/-- Helper: after the erase-each-key fold, no surviving entry carries any
of the erased keys. -/
theorem foldl_filter_removes_key (ks : List String) (k : String) (hk : k ∈ ks) :
    ∀ (m : RequestCache) (e : String × Int),
      e ∈ ks.foldl (fun acc kk => acc.filter (fun x => x.1 != kk)) m →
      (e.1 == k) = false := by
  induction ks with
  | nil => cases hk
  | cons k0 ks ih =>
    intro m e he
    rcases List.mem_cons.mp hk with h | h
    · subst h
      have hm : e ∈ m.filter (fun x => x.1 != k) :=
        foldl_filter_subset ks (m.filter (fun x => x.1 != k)) e he
      have := (List.mem_filter.mp hm).2
      simpa [bne] using this
    · exact ih h (m.filter (fun x => x.1 != k0)) e he

/-- Helper: at time 10000 the TTL prune keeps the whole flooded cache. -/
theorem flooded_filter_eq :
    floodedCache.filter (fun e => !decide (CACHE_DURATION < 10000 - e.2)) = floodedCache := by
  rw [List.filter_eq_self]
  intro e he
  rcases flooded_elem e he with h | h
  · rw [h]; rfl
  · show (!decide (CACHE_DURATION < 10000 - e.2)) = true
    rw [h]; rfl

/-- Helper: the size-cap eviction of `cleanupCache` deletes the target key
from the flooded cache even though its entry is fresher than the 3-second
dedup window. -/
theorem flooded_cleanup_lookup_none :
    cacheLookup (cleanupCache 10000 floodedCache) ("k") = none := by
  have hlen : floodedCache.length = MAX_CACHE_SIZE + 1 := by
    simp [floodedCache]
  have hsorted := List.sorted_insertionSort byTimestamp floodedCache
  have hperm := List.perm_insertionSort byTimestamp floodedCache
  have hne : List.insertionSort byTimestamp floodedCache ≠ [] := by
    intro h0
    have hl := hperm.length_eq
    rw [h0, hlen] at hl
    exact absurd hl.symm (by simp)
  obtain ⟨hd, tl, hcons⟩ := List.exists_cons_of_ne_nil hne
  have hhd : hd = (("k" : String), (7500 : Int)) := by
    by_contra hne2
    have hdmem : hd ∈ floodedCache := by
      rw [← hperm.mem_iff, hcons]
      exact List.mem_cons_self hd tl
    rcases flooded_elem hd hdmem with h | h
    · exact hne2 h
    · have hkmem : (("k" : String), (7500 : Int)) ∈ hd :: tl := by
        rw [← hcons, hperm.mem_iff]
        exact List.mem_cons_self _ _
      rcases List.mem_cons.mp hkmem with h2 | h2
      · rw [← h2] at h
        exact absurd h (by decide)
      · have hpw : List.Pairwise byTimestamp (hd :: tl) := by rw [← hcons]; exact hsorted
        have hrel := (List.pairwise_cons.mp hpw).1 _ h2
        rw [byTimestamp, h] at hrel
        exact absurd hrel (by decide)
  have hkdel : ("k" : String) ∈
      ((List.insertionSort byTimestamp floodedCache).take (MAX_CACHE_SIZE / 5)).map
        Prod.fst := by
    rw [hcons, hhd]
    have h200 : MAX_CACHE_SIZE / 5 = 199 + 1 := rfl
    rw [h200, List.take_succ_cons]
    exact List.mem_map_of_mem Prod.fst (List.mem_cons_self _ _)
  have hclean : cleanupCache 10000 floodedCache =
      (((List.insertionSort byTimestamp floodedCache).take (MAX_CACHE_SIZE / 5)).map
          Prod.fst).foldl (fun acc k => acc.filter (fun e => e.1 != k)) floodedCache := by
    simp only [cleanupCache, flooded_filter_eq]
    rw [if_pos (by rw [hlen]; exact Nat.lt_succ_self _)]
  rw [hclean, cacheLookup]
  rw [List.find?_eq_none.mpr
    (fun e he => ne_true_of_eq_false (foldl_filter_removes_key _ _ hkdel _ e he))]
  rfl

/-- C8 counterexample: at time 10000 the flooded dedup map holds the entry
`("k", 7500)` — only 2500ms old, inside the 3-second window — yet the
request is not answered with a `Conflict`: the size-cap eviction of
`cleanupCache` deletes the 200 oldest entries first, the fresh target
entry among them, and the request proceeds to the catalog. -/
theorem fresh_entry_evicted_no_conflict :
    cacheLookup floodedCache ("k") = some 7500 ∧
    (10000 : Int) - 7500 < 3000 ∧
    (dedupCheck floodedCache 10000 ("k")).isConflict = false := by
  refine ⟨rfl, by decide, ?_⟩
  rw [dedupCheck]
  rw [flooded_cleanup_lookup_none]
  rfl

/-- C8 amended: when the dedup map (after the TTL prune) is within the
1000-entry size cap and holds an entry for the key less than 3 seconds
old, the request fails with the 429 duplicate response carrying
`retryAfter = 3` and no catalog call is made; starting from an empty map,
of two same-key requests within the window the first proceeds to the
catalog and the second receives the conflict. -/
theorem dedup_conflict_within_cap (m : RequestCache) (now ts t t2 : Int) (key : String) :
    ((m.filter (fun e => !decide (CACHE_DURATION < now - e.2))).length ≤ MAX_CACHE_SIZE →
      cacheLookup (m.filter (fun e => !decide (CACHE_DURATION < now - e.2))) key = some ts →
      now - ts < 3000 →
      dedupCheck m now key = .conflict 3) ∧
    (t2 - t < 3000 →
      dedupCheck [] t key = .toCatalog [(key, t)] ∧
      dedupCheck [(key, t)] t2 key = .conflict 3) := by
  constructor
  · intro hlen hts hfresh
    have hclean : cleanupCache now m =
        m.filter (fun e => !decide (CACHE_DURATION < now - e.2)) := by
      simp only [cleanupCache]
      rw [if_neg (Nat.not_lt.mpr hlen)]
    rw [dedupCheck, hclean, hts]
    simp only [if_pos hfresh]
  · intro hwin
    constructor
    · rfl
    · have hfil : (([(key, t)] : RequestCache).filter
          (fun e => !decide (CACHE_DURATION < t2 - e.2))) = [(key, t)] := by
        rw [List.filter_eq_self]
        intro e he
        rw [List.mem_singleton.mp he]
        simp only [Bool.not_eq_true']
        rw [decide_eq_false_iff_not, CACHE_DURATION]
        omega
      have hclean : cleanupCache t2 [(key, t)] = [(key, t)] := by
        simp only [cleanupCache]
        rw [hfil]
        rw [if_neg (by rw [List.length_singleton]; exact Nat.not_lt.mpr (by norm_num [MAX_CACHE_SIZE]))]
      have hlook : cacheLookup ([(key, t)] : RequestCache) key = some t := by
        rw [cacheLookup, List.find?_cons]
        simp
      rw [dedupCheck, hclean, hlook]
      simp only [if_pos hwin]

/-- C8 amended witness: a one-entry map with a 2500ms-old entry produces
the conflict, and the two-request scenario at times 0 and 1000. -/
theorem dedup_conflict_within_cap_witness :
    (([(("k" : String), (7500 : Int))] : RequestCache).filter
        (fun e => !decide (CACHE_DURATION < 10000 - e.2))).length ≤ MAX_CACHE_SIZE ∧
    cacheLookup (([(("k" : String), (7500 : Int))] : RequestCache).filter
        (fun e => !decide (CACHE_DURATION < 10000 - e.2))) ("k") = some 7500 ∧
    dedupCheck [(("k" : String), (7500 : Int))] 10000 ("k") = .conflict 3 ∧
    dedupCheck [] 0 ("k") = .toCatalog [(("k" : String), (0 : Int))] ∧
    dedupCheck [(("k" : String), (0 : Int))] 1000 ("k") = .conflict 3 := by
  have h1 := (dedup_conflict_within_cap [(("k" : String), (7500 : Int))] 10000 7500 0 1000
    ("k")).1 (by decide) (by decide) (by decide)
  have h2 := (dedup_conflict_within_cap [(("k" : String), (7500 : Int))] 10000 7500 0 1000
    ("k")).2 (by decide)
  exact ⟨by decide, by decide, h1, h2.1, h2.2⟩
